import Mathlib

/-!
Verification of the goworkshop repository (src/main.go).

The repository exposes a single generic function ConvertTo[T1, T2] that
reinterprets the memory of a value of type T1 (a pointer to a struct) as a
value of the struct type T2, after a sequence of reflection-based
compatibility checks.  Every check failure is a panic carrying a fixed
message; we model each panic as a distinct Violation value and ConvertTo as
a function into Except Violation.

The embedding below mirrors main.go line by line:
  - Kind models reflect.Kind (only the kinds this program can meet);
  - GoType models reflect.Type (primitives, pointers, structs with named
    fields in declaration order);
  - GoType.convertibleTo models reflect.Type.ConvertibleTo restricted to the
    shapes reachable in ConvertTo (two struct types are convertible exactly
    when their underlying field lists are identical, field names included,
    the defined-type names being irrelevant; on any other shapes we fall
    back to type identity);
  - validate is the check sequence of lines 73-102, including the
    self-comparison of line 84 exactly as written
    (elmTyp1.NumField() < elmTyp1.NumField());
  - reflect.Value.Field(i) with i out of range panics inside the loop; that
    reflect-level panic is the Violation.fieldIndexOutOfRange constructor;
  - the unsafe pointer cast of line 103 is modelled by reinterpret: under
    the declaration-order prefix-layout assumption of the design, reading a
    T1 struct's memory as T2 yields the prefix of T1's field values of
    length NumField(T2), reference fields being copied as references;
  - memory is an explicit heap (Nat addresses to values) threaded through
    ConvertTo, so that absence of writes is a provable statement.
-/

namespace GoWorkshop

/-- Models reflect.Kind, restricted to the kinds that can appear in this
program: the scalar kinds listed in validKinds, the missing 16-bit integer
kinds, string, pointer and struct. -/
inductive Kind where
  | bool | int | int8 | int16 | int32 | int64
  | uint | uint8 | uint16 | uint32 | uint64
  | float32 | float64
  | string
  | pointer
  | struct
  deriving DecidableEq, Repr

/-- Models reflect.Type: a primitive type of a scalar kind, a pointer type,
or a defined struct type with its name and its fields (name and type) in
declaration order. -/
inductive GoType where
  | prim (k : Kind)
  | ptr (elem : GoType)
  | strct (name : String) (fields : List (String × GoType))

/-- Models reflect.Type.Kind(). -/
def GoType.kind : GoType → Kind
  | .prim k => k
  | .ptr _ => .pointer
  | .strct _ _ => .struct

/-- Models reflect.Type.Elem(), which is only legal on pointer types
(reflect panics otherwise, hence the Option). -/
def GoType.elem? : GoType → Option GoType
  | .ptr e => some e
  | _ => none

/-- The declared field list of a struct type (empty on non-structs, which
reflect would reject before any field access in this program). -/
def GoType.fields : GoType → List (String × GoType)
  | .strct _ fs => fs
  | _ => []

/-- Models reflect.Type.NumField(). -/
def GoType.numField (t : GoType) : Nat :=
  t.fields.length

/-- Models reflect.Type.Field(i).Type; none models reflect's
"Field index out of range" panic. -/
def GoType.fieldType (t : GoType) (i : Nat) : Option GoType :=
  (t.fields[i]?).map Prod.snd

mutual

/-- Structural identity of types (Go type identity: defined struct types are
identical only when name and fields agree). -/
def GoType.beq : GoType → GoType → Bool
  | .prim k, .prim l => k == l
  | .ptr e, .ptr f => GoType.beq e f
  | .strct n fs, .strct m gs => n == m && goFieldsBeq fs gs
  | _, _ => false

/-- Identity of field lists: same length, and at each position the same
field name and an identical field type. -/
def goFieldsBeq : List (String × GoType) → List (String × GoType) → Bool
  | [], [] => true
  | (a, t) :: fs, (b, u) :: gs => a == b && GoType.beq t u && goFieldsBeq fs gs
  | _, _ => false

end

/-- Models reflect.Type.ConvertibleTo for the shapes reachable in ConvertTo:
it is applied there only to two struct types (after the shape checks), and
two struct types are convertible exactly when their underlying types are
identical, i.e. their field lists agree (field names included), the
defined-type names themselves being irrelevant.  On any other shapes we fall
back to type identity. -/
def GoType.convertibleTo (t u : GoType) : Bool :=
  match t, u with
  | .strct _ fs, .strct _ gs => goFieldsBeq fs gs
  | t, u => GoType.beq t u

/-- The distinct panics of main.go, one constructor per panic site; the
spec's names for them are noted on each constructor. -/
inductive Violation where
  /-- "T1 must be a pointer to struct" (InvalidSourceShape). -/
  | invalidSourceShape
  /-- "T2 must be a struct" (InvalidTargetShape). -/
  | invalidTargetShape
  /-- "T1 must not be a type definition of T2 or vice versa"
  (RedundantConversion). -/
  | redundantConversion
  /-- "T2 must be no larger than T1" (TargetTooLarge). -/
  | targetTooLarge
  /-- "T2 and T1 must have the same field type" at field index i
  (FieldKindMismatch\x7bi\x7d). -/
  | fieldKindMismatch (i : Nat)
  /-- "T2 or T1 must be a valid type" at field index i
  (UnsupportedFieldKind\x7bi\x7d). -/
  | unsupportedFieldKind (i : Nat)
  /-- The reflect panic "reflect: Field index out of range" raised by
  Field(i) on a struct with fewer than i+1 fields; not a panic written in
  main.go itself, but reachable through it. -/
  | fieldIndexOutOfRange (i : Nat)
  deriving DecidableEq, Repr

/-- Lines 107-119 of main.go: the array of allowed kinds, in source order.
Note it contains neither int16 nor uint16. -/
def validKinds : List Kind :=
  [.bool, .int, .int8, .int32, .int64,
   .uint, .uint8, .uint32, .uint64,
   .float32, .float64]

/-- Lines 121-128 of main.go: linear scan of validKinds. -/
def isValidKind (kind : Kind) : Bool :=
  validKinds.contains kind

/-- Lines 93-98 of main.go, for one side: strip one level of pointer
indirection if the type is a pointer, otherwise leave it unchanged. -/
def indirect : GoType → GoType
  | .ptr e => e
  | t => t

/-- One iteration of the loop of lines 87-102: fetch the i-th field type of
each struct (target first, as in lines 88-89), compare the raw kinds
(line 90), then strip one level of indirection (lines 93-98) and check both
resulting kinds against validKinds (line 99). -/
def checkField (elmTyp1 elmTyp2 : GoType) (i : Nat) : Except Violation Unit :=
  match elmTyp2.fieldType i with
  | none => .error (.fieldIndexOutOfRange i)
  | some ftyp2 =>
    match elmTyp1.fieldType i with
    | none => .error (.fieldIndexOutOfRange i)
    | some ftyp1 =>
      if ftyp1.kind != ftyp2.kind then
        .error (.fieldKindMismatch i)
      else if !(isValidKind (indirect ftyp1).kind)
              || !(isValidKind (indirect ftyp2).kind) then
        .error (.unsupportedFieldKind i)
      else
        .ok ()

/-- The loop of lines 87-102, running checkField at indices i, i+1, ... for
k iterations, stopping at the first violation. -/
def checkFieldsAux (elmTyp1 elmTyp2 : GoType) : Nat → Nat → Except Violation Unit
  | _, 0 => .ok ()
  | i, k + 1 =>
    match checkField elmTyp1 elmTyp2 i with
    | .error v => .error v
    | .ok _ => checkFieldsAux elmTyp1 elmTyp2 (i + 1) k

/-- The whole loop of lines 87-102: indices 0 to elmTyp2.NumField() - 1. -/
def checkFields (elmTyp1 elmTyp2 : GoType) : Except Violation Unit :=
  checkFieldsAux elmTyp1 elmTyp2 0 elmTyp2.numField

/-- Lines 73-102 of main.go: the full check sequence, in source order.
Line 84 is kept exactly as written in the source: it compares
elmTyp1.NumField() with elmTyp1.NumField() (the same quantity on both
sides), not with elmTyp2.NumField(). -/
def validate (ttyp1 ttyp2 : GoType) : Except Violation Unit :=
  match ttyp1.elem? with
  | none => .error .invalidSourceShape
  | some elmTyp1 =>
    if elmTyp1.kind != .struct then .error .invalidSourceShape
    else if ttyp2.kind != .struct then .error .invalidTargetShape
    else if elmTyp1.convertibleTo ttyp2 then .error .redundantConversion
    else if elmTyp1.numField < elmTyp1.numField then .error .targetTooLarge
    else checkFields elmTyp1 ttyp2

/-- Runtime values: a scalar of some kind with an integer payload, a string,
a pointer holding a heap address, or a struct holding its field values in
declaration order. -/
inductive GoVal where
  | prim (k : Kind) (n : Int)
  | strV (s : String)
  | ptrV (addr : Nat)
  | structV (fields : List GoVal)

/-- Memory: heap addresses to values.  The source struct lives at the
address held by the T1 pointer; pointer-typed fields hold further
addresses. -/
abbrev Heap := Nat → GoVal

/-- Line 103 of main.go, the unsafe cast: under the declaration-order
prefix-layout assumption of the design, reading a T1 struct value's memory
as T2 yields the prefix of its field values of length NumField(T2);
reference fields are copied as references (the same address), not followed.
-/
def reinterpret (ttyp2 : GoType) (v : GoVal) : GoVal :=
  match v with
  | .structV fs => .structV (fs.take ttyp2.numField)
  | v => v

/-- ConvertTo of main.go (lines 70-105) over types (ttyp1, ttyp2), a source
pointer value t1 (a heap address) and the heap.  The checks of lines 73-102
run first; only if they all pass does line 103 read the source memory.  The
heap is threaded through and returned so that (absence of) writes is
observable: the function body never stores to the heap, as the source never
writes through t1. -/
def ConvertTo (ttyp1 ttyp2 : GoType) (t1 : Nat) (h : Heap) :
    Heap × Except Violation GoVal :=
  match validate ttyp1 ttyp2 with
  | .error v => (h, .error v)
  | .ok _ => (h, .ok (reinterpret ttyp2 (h t1)))

/-- Reading field i of a struct value. -/
def GoVal.field? : GoVal → Nat → Option GoVal
  | .structV fs, i => fs[i]?
  | _, _ => none

/-- The violation carried by a failed result, none on success. -/
def violationOf {α : Type} : Except Violation α → Option Violation
  | .error v => some v
  | .ok _ => none

/-- Lines 130-134 of main.go. -/
def Type1 : GoType :=
  .strct "Type1" [("t1", .prim .int8), ("t2", .ptr (.prim .int32)),
                  ("t3", .prim .string)]

/-- Lines 135-138 of main.go. -/
def Type2 : GoType :=
  .strct "Type2" [("tt1", .prim .int8), ("tt2", .ptr (.prim .int32))]

/-- The heap built by main (lines 141-142): address 0 holds the Type1 value
with t1 = 1, t2 pointing at address 1, t3 = "test"; address 1 holds the
int32 value 2. -/
def demoHeap : Heap := fun a =>
  if a = 0 then .structV [.prim .int8 1, .ptrV 1, .strV "test"]
  else if a = 1 then .prim .int32 2
  else .prim .int 0

/-- An all-zero heap for inputs whose memory content is irrelevant. -/
def zeroHeap : Heap := fun _ => .prim .int 0

/-- The allowed primitive kind set as the spec enumerates it: boolean,
signed integers of default, 8, 32 and 64-bit width, unsigned integers of
default, 8, 32 and 64-bit width, and 32/64-bit floating point.  Stated from
the spec's words, to be compared with validKinds from the source. -/
def specAllowedKinds : List Kind :=
  [.bool,
   .int, .int8, .int32, .int64,
   .uint, .uint8, .uint32, .uint64,
   .float32, .float64]

/-- The spec's invariant 4, stated from the spec's words: for every field
index i below T2's field count, the i-th fields of T1's pointee and of T2
have the same kind after stripping one level of indirection from either
side if present.  To be compared with the source's per-field check, which
compares the raw kinds before stripping. -/
def specStrippedKindsMatch (elmTyp1 ttyp2 : GoType) : Bool :=
  (List.range ttyp2.numField).all fun i =>
    match elmTyp1.fieldType i, ttyp2.fieldType i with
    | some ftyp1, some ftyp2 => (indirect ftyp1).kind == (indirect ftyp2).kind
    | _, _ => false

/-- A heap whose address 0 holds a one-field struct whose field is a
pointer to address 1, holding an int8. -/
def ptrFieldHeap : Heap := fun a =>
  if a = 0 then .structV [.ptrV 1] else .prim .int8 7

mutual

/-- Type identity is reflexive. -/
theorem GoType.beq_refl : (t : GoType) → GoType.beq t t = true
  | .prim k => by simp [GoType.beq]
  | .ptr e => by simpa [GoType.beq] using GoType.beq_refl e
  | .strct n fs => by simp [GoType.beq, goFieldsBeq_refl fs]

/-- Field-list identity is reflexive. -/
theorem goFieldsBeq_refl : (fs : List (String × GoType)) → goFieldsBeq fs fs = true
  | [] => by simp [goFieldsBeq]
  | (a, t) :: fs => by
      simp [goFieldsBeq, GoType.beq_refl t, goFieldsBeq_refl fs]

end

/-- C5: if T2 is a renamed definition of T1's pointee (same field list under
a possibly different type name), ConvertTo's validation stops at the
redundancy check with the RedundantConversion panic, whatever the fields
are. -/
theorem C5_renamed_definition_redundant (n m : String)
    (fs : List (String × GoType)) :
    validate (.ptr (.strct n fs)) (.strct m fs)
      = .error .redundantConversion := by
  simp [validate, GoType.elem?, GoType.kind, GoType.convertibleTo,
        goFieldsBeq_refl]

/-- C1: at the failing input T1 = pointer to struct \x7ba int8\x7d and
T2 = struct \x7ba int8; b int8\x7d (T2 declares more fields than T1's
pointee), validation does not fail with the TargetTooLarge panic of line 85
— the comparison of line 84 is a self-comparison and never fires — but with
reflect's out-of-range panic when line 89 accesses field 1 of the
one-field pointee. -/
theorem C1_larger_target_out_of_range :
    validate (.ptr (.strct "S" [("a", .prim .int8)]))
        (.strct "T" [("a", .prim .int8), ("b", .prim .int8)])
      = .error (.fieldIndexOutOfRange 1)
    ∧ validate (.ptr (.strct "S" [("a", .prim .int8)]))
        (.strct "T" [("a", .prim .int8), ("b", .prim .int8)])
      ≠ .error .targetTooLarge := by
  refine ⟨rfl, fun hc => ?_⟩
  exact Violation.noConfusion (Except.error.inj hc)

/-- C7: at an input violating both the size invariant (two target fields
against one source field) and the field-kind invariant at index 0 (int32
against int8), the violation reported is FieldKindMismatch at index 0, not
the TargetTooLarge that the claimed check order (size before per-field)
would produce: line 84's self-comparison makes the size check
unreachable. -/
theorem C7_size_violation_masked :
    validate (.ptr (.strct "S" [("a", .prim .int8)]))
        (.strct "T" [("b", .prim .int32), ("c", .prim .int32)])
      = .error (.fieldKindMismatch 0) := rfl

/-- C2 counterexample: a source field of kind pointer-to-int32 paired with a
target field of plain kind int32 does not pass the kind comparison — the
code compares the raw kinds (line 90) before stripping indirection
(lines 93-98), so validation fails with FieldKindMismatch at index 0. -/
theorem C2_counterexample_ptr_vs_plain :
    validate (.ptr (.strct "A" [("x", .ptr (.prim .int32))]))
        (.strct "B" [("y", .prim .int32)])
      = .error (.fieldKindMismatch 0) := rfl

/-- C3: the allowed primitive kind set of validKinds is exactly the
enumerated set the spec lists (note: no 16-bit integer kinds); a field of
kind uint16 on both sides passes the raw kind comparison and then fails
validation with UnsupportedFieldKind at its index. -/
theorem C3_valid_kind_set :
    (∀ k : Kind, isValidKind k = true ↔ k ∈ specAllowedKinds)
    ∧ isValidKind .uint16 = false
    ∧ validate (.ptr (.strct "U" [("a", .prim .uint16)]))
        (.strct "V" [("b", .prim .uint16)])
      = .error (.unsupportedFieldKind 0) := by
  refine ⟨fun k => ?_, rfl, rfl⟩
  cases k <;> decide

/-- C4: on the demonstration types (Type1 with fields int8, pointer to
int32, string at address 0 of demoHeap; Type2 with fields int8, pointer to
int32), ConvertTo succeeds, and the returned Type2 value's second field is
the very same reference as the source's second field (address 1), whose
pointed-to value is the int32 2. -/
theorem C4_demo_conversion :
    ∃ t2 : GoVal,
      (ConvertTo (.ptr Type1) Type2 0 demoHeap).2 = .ok t2
      ∧ t2.field? 1 = (demoHeap 0).field? 1
      ∧ t2.field? 1 = some (.ptrV 1)
      ∧ demoHeap 1 = .prim .int32 2 :=
  ⟨.structV [.prim .int8 1, .ptrV 1], rfl, rfl, rfl, rfl⟩

/-- C2 (amended): the per-field check at index i compares the raw,
unstripped kinds of the two fields and fails with FieldKindMismatch at i
exactly when those raw kinds differ; indirection is stripped only
afterwards, for the validity check. -/
theorem C2_raw_kind_comparison (elmTyp1 elmTyp2 : GoType) (i : Nat)
    (ftyp1 ftyp2 : GoType)
    (h1 : elmTyp1.fieldType i = some ftyp1)
    (h2 : elmTyp2.fieldType i = some ftyp2) :
    checkField elmTyp1 elmTyp2 i = .error (.fieldKindMismatch i)
      ↔ ftyp1.kind ≠ ftyp2.kind := by
  by_cases hk : ftyp1.kind = ftyp2.kind
  · simp only [checkField, h1, h2, hk, bne_self_eq_false, Bool.false_eq_true,
               if_false]
    constructor
    · intro hcf
      split at hcf <;> cases hcf
    · intro hne
      exact absurd rfl hne
  · simp [checkField, h1, h2, bne, hk]

/-- Witness for C2_raw_kind_comparison at the concrete pair of a
pointer-to-int32 source field against a plain int32 target field. -/
theorem C2_raw_kind_comparison_witness :
    checkField (.strct "A" [("x", .ptr (.prim .int32))])
        (.strct "B" [("y", .prim .int32)]) 0
      = .error (.fieldKindMismatch 0) :=
  (C2_raw_kind_comparison (.strct "A" [("x", .ptr (.prim .int32))])
      (.strct "B" [("y", .prim .int32)]) 0
      (.ptr (.prim .int32)) (.prim .int32) rfl rfl).mpr (by decide)

/-- The per-field check can fail with an out-of-range access, a kind
mismatch or an unsupported kind, but never with TargetTooLarge. -/
theorem checkField_error_ne_targetTooLarge (elmTyp1 elmTyp2 : GoType)
    (i : Nat) (v : Violation)
    (h : checkField elmTyp1 elmTyp2 i = .error v) :
    v ≠ .targetTooLarge := by
  unfold checkField at h
  repeat' split at h
  all_goals cases h <;> simp

/-- If the per-field check at index i succeeds, the source struct really
has a field at index i. -/
theorem checkField_ok_lt (elmTyp1 elmTyp2 : GoType) (i : Nat)
    (h : checkField elmTyp1 elmTyp2 i = .ok ()) :
    i < elmTyp1.numField := by
  unfold checkField at h
  split at h
  · cases h
  · split at h
    · cases h
    · rename_i ftyp1 hf1
      by_contra hge
      push_neg at hge
      have hnone : elmTyp1.fieldType i = none := by
        simp [GoType.fieldType, List.getElem?_eq_none hge]
      rw [hnone] at hf1
      cases hf1

/-- When the loop of lines 87-102 is asked to run past the source struct's
field count, it always stops with a violation, and that violation is never
TargetTooLarge. -/
theorem checkFieldsAux_error_of_short (elmTyp1 elmTyp2 : GoType) :
    ∀ k i, i ≤ elmTyp1.numField → elmTyp1.numField < i + k →
      ∃ v, checkFieldsAux elmTyp1 elmTyp2 i k = .error v
        ∧ v ≠ .targetTooLarge := by
  intro k
  induction k with
  | zero =>
    intro i hle hlt
    omega
  | succ k ih =>
    intro i hle hlt
    cases hc : checkField elmTyp1 elmTyp2 i with
    | error v =>
      exact ⟨v, by simp [checkFieldsAux, hc],
             checkField_error_ne_targetTooLarge elmTyp1 elmTyp2 i v hc⟩
    | ok u =>
      cases u
      have hi : i < elmTyp1.numField := checkField_ok_lt elmTyp1 elmTyp2 i hc
      have hrec := ih (i + 1) hi (by omega)
      simpa [checkFieldsAux, hc] using hrec

/-- C6: when T2 declares more fields than T1's pointee, ConvertTo never
returns a value: line 84's self-comparison never raises TargetTooLarge, but
the loop of lines 87-102 always aborts — at the latest when line 89
accesses a field of T1's pointee at an index at or beyond its field count —
so no successful reinterpretation occurs for a larger T2. -/
theorem C6_larger_target_never_converts (n1 n2 : String)
    (fs1 fs2 : List (String × GoType)) (t1 : Nat) (h : Heap)
    (hlen : fs1.length < fs2.length) :
    ∃ v, (ConvertTo (.ptr (.strct n1 fs1)) (.strct n2 fs2) t1 h).2 = .error v
      ∧ v ≠ .targetTooLarge := by
  have hval : ∃ v, validate (.ptr (.strct n1 fs1)) (.strct n2 fs2) = .error v
      ∧ v ≠ .targetTooLarge := by
    by_cases hconv :
        GoType.convertibleTo (.strct n1 fs1) (.strct n2 fs2) = true
    · refine ⟨.redundantConversion, ?_, by simp⟩
      simp [validate, GoType.elem?, GoType.kind, hconv]
    · have hloop := checkFieldsAux_error_of_short (.strct n1 fs1)
        (.strct n2 fs2) fs2.length 0
        (by simp [GoType.numField, GoType.fields])
        (by simpa [GoType.numField, GoType.fields] using hlen)
      obtain ⟨v, hv, hne⟩ := hloop
      refine ⟨v, ?_, hne⟩
      simpa [validate, GoType.elem?, GoType.kind, hconv, checkFields,
             GoType.numField, GoType.fields] using hv
  obtain ⟨v, hv, hne⟩ := hval
  exact ⟨v, by simp [ConvertTo, hv], hne⟩

/-- Witness for C6_larger_target_never_converts: a one-field source pointee
against a two-field target. -/
theorem C6_larger_target_never_converts_witness :
    ∃ v, (ConvertTo (.ptr (.strct "S" [("a", .prim .int8)]))
        (.strct "T" [("a", .prim .int8), ("b", .prim .int8)]) 0 zeroHeap).2
      = .error v ∧ v ≠ .targetTooLarge :=
  C6_larger_target_never_converts "S" "T" [("a", .prim .int8)]
    [("a", .prim .int8), ("b", .prim .int8)] 0 zeroHeap (by decide)

/-- C8 counterexample: with T1 = pointer to struct \x7bx *int8\x7d and
T2 = struct \x7by *int32\x7d, ConvertTo returns a value — the two raw field
kinds are both pointer, so line 90 passes, and int8 and int32 are both
valid kinds, so line 99 passes — even though the spec's invariant 4 (equal
kinds after stripping one level of indirection) is violated: not all five
invariants hold, yet the call does not abort. -/
theorem C8_counterexample_success_despite_invariant4 :
    (ConvertTo (.ptr (.strct "A" [("x", .ptr (.prim .int8))]))
        (.strct "B" [("y", .ptr (.prim .int32))]) 0 ptrFieldHeap).2
      = .ok (.structV [.ptrV 1])
    ∧ specStrippedKindsMatch (.strct "A" [("x", .ptr (.prim .int8))])
        (.strct "B" [("y", .ptr (.prim .int32))]) = false :=
  ⟨rfl, rfl⟩

/-- C8 (amended): every call either passes the whole validation and returns
the reinterpretation of the source memory, or aborts carrying exactly the
validator's violation with the heap untouched — no execution performs any
part of the reinterpretation and then fails a check.  (The invariants that
hold on a successful return are the checks the code performs; its per-field
check compares raw kinds, so the spec's stripped-kind invariant 4 can be
violated on a successful call.) -/
theorem C8_no_partial_reinterpretation (ttyp1 ttyp2 : GoType) (t1 : Nat)
    (h : Heap) :
    (validate ttyp1 ttyp2 = .ok ()
        ∧ ConvertTo ttyp1 ttyp2 t1 h = (h, .ok (reinterpret ttyp2 (h t1))))
    ∨ (∃ v, validate ttyp1 ttyp2 = .error v
        ∧ ConvertTo ttyp1 ttyp2 t1 h = (h, .error v)) := by
  cases hv : validate ttyp1 ttyp2 with
  | ok u => cases u; exact Or.inl ⟨rfl, by simp [ConvertTo, hv]⟩
  | error v => exact Or.inr ⟨v, rfl, by simp [ConvertTo, hv]⟩

/-- C9: the outcome kind of ConvertTo is a pure function of the type pair:
for the same (T1, T2), calls with different source values and different
heaps produce the identical violation (or both succeed); the embedding is a
pure function, so two calls at the very same arguments are equal
definitionally and no call history exists to depend on. -/
theorem C9_outcome_pure_in_types (ttyp1 ttyp2 : GoType) (t1 t1' : Nat)
    (h h' : Heap) :
    violationOf (ConvertTo ttyp1 ttyp2 t1 h).2
      = violationOf (ConvertTo ttyp1 ttyp2 t1' h').2
    ∧ ((∃ a, (ConvertTo ttyp1 ttyp2 t1 h).2 = .ok a)
        ↔ (∃ a, (ConvertTo ttyp1 ttyp2 t1' h').2 = .ok a)) := by
  cases hv : validate ttyp1 ttyp2 <;>
    simp [ConvertTo, hv, violationOf]

/-- C10: ConvertTo never writes to memory: the heap coming out of any call,
successful or not, is the heap that went in, so the source struct's fields
and every pointed-to value are unchanged. -/
theorem C10_source_never_mutated (ttyp1 ttyp2 : GoType) (t1 : Nat)
    (h : Heap) :
    (ConvertTo ttyp1 ttyp2 t1 h).1 = h := by
  cases hv : validate ttyp1 ttyp2 <;> simp [ConvertTo, hv]

end GoWorkshop
